import Mathlib

set_option maxRecDepth 8000

/-!
Shallow embedding of src/open-racer-firmware.c (and the uart send trace from
src/uart.c) for the i-Racer firmware.  Machine integers are modelled as
Nat/Int with explicit mod-2^8 wraparound where the C types (uint8_t,
int16_t) make overflow observable.  The UART output is modelled as the
trace of bytes sent.  Hardware registers written by the code (OCR0A, OCR0B,
OCR1A, OCR1B, OCR2B), the EEPROM bytes and the LEDs are fields of the
machine state.  Busy-wait delays have no modelled effect.
-/

/-- ToggleState: a countdown (uint8_t) plus a boolean, as in the pairs
voltagedisplaytogglecountdown/voltagedisplaytogglestate and
battwarntogglecountdown/battwarntogglestate. -/
structure ToggleState where
  countdown : Nat
  state : Bool
  deriving DecidableEq, Repr

/-- Machine state touched by the firmware's control logic. -/
structure FwState where
  /-- static int16_t velocity -/
  velocity : Int
  /-- static int16_t steerposition -/
  steerposition : Int
  /-- steer right PWM duty register -/
  OCR0A : Nat
  /-- steer left PWM duty register -/
  OCR0B : Nat
  /-- drive reverse PWM duty register -/
  OCR1A : Nat
  /-- drive forward PWM duty register -/
  OCR1B : Nat
  /-- blue LED PWM duty register -/
  OCR2B : Nat
  /-- static uint8_t battlevel -/
  battlevel : Nat
  /-- display toggle: voltagedisplaytogglecountdown / voltagedisplaytogglestate -/
  vdToggle : ToggleState
  /-- warning toggle: battwarntogglecountdown / battwarntogglestate -/
  bwToggle : ToggleState
  /-- EEPROM byte ourmagic -/
  eemagic : Nat
  /-- EEPROM byte ourage -/
  eeage : Nat
  led1 : Bool
  led2 : Bool
  led3 : Bool
  led4 : Bool
  led5 : Bool
  /-- trace of bytes written to the UART, in order -/
  uartOut : List Nat
  deriving DecidableEq, Repr

/-- Append bytes to the UART output trace (uart_sendch writes one byte;
uart_send writes each byte of a string in order, so a whole send is the
concatenation of its bytes). -/
def emit (bs : List Nat) (s : FwState) : FwState :=
  { s with uartOut := s.uartOut ++ bs }

/-- uart_sendch from src/uart.c: send a single byte. -/
def uart_sendch (ch : Nat) (s : FwState) : FwState :=
  emit [ch] s

/-- uart_send from src/uart.c: send every byte of the string until NUL. -/
def uart_send (str : List Nat) (s : FwState) : FwState :=
  emit str s

/-- The bytes uart_sendint (src/uart.c) sends for a value v: an optional
minus sign, then up to four decimal digits with leading zeros suppressed
via the running flag n (the ones digit is always sent). -/
def sendint_bytes (v : Int) : List Nat :=
  let sign : List Nat := if v < 0 then [45] else []
  let w : Nat := v.natAbs
  let th := 48 + (w % 10000) / 1000
  let h := 48 + (w % 1000) / 100
  let t := 48 + (w % 100) / 10
  let o := 48 + (w % 10) / 1
  let n1 : Bool := decide (th ≠ 48)
  let d1 : List Nat := if n1 then [th] else []
  let n2 : Bool := n1 || decide (h ≠ 48)
  let d2 : List Nat := if n2 then [h] else []
  let n3 : Bool := n2 || decide (t ≠ 48)
  let d3 : List Nat := if n3 then [t] else []
  sign ++ d1 ++ d2 ++ d3 ++ [o]

/-- uart_sendint from src/uart.c. -/
def uart_sendint (v : Int) (s : FwState) : FwState :=
  emit (sendint_bytes v) s

def led1on (s : FwState) : FwState := { s with led1 := true }
def led1off (s : FwState) : FwState := { s with led1 := false }
def led2on (s : FwState) : FwState := { s with led2 := true }
def led2off (s : FwState) : FwState := { s with led2 := false }
def led3on (s : FwState) : FwState := { s with led3 := true }
def led3off (s : FwState) : FwState := { s with led3 := false }
def led4on (s : FwState) : FwState := { s with led4 := true }
def led4off (s : FwState) : FwState := { s with led4 := false }
def led5off (s : FwState) : FwState := { s with led5 := false }

/-- Byte list of the C string "drive=". -/
def strDrive : List Nat := [100, 114, 105, 118, 101, 61]
/-- Byte list of the C string "steer=". -/
def strSteer : List Nat := [115, 116, 101, 101, 114, 61]
/-- Byte list of the C string "batt=". -/
def strBatt : List Nat := [98, 97, 116, 116, 61]
/-- Byte list of the C string " batt=". -/
def strSpBatt : List Nat := [32, 98, 97, 116, 116, 61]
/-- Byte list of the C string "batt long check:". -/
def strBattLongCheck : List Nat :=
  [98, 97, 116, 116, 32, 108, 111, 110, 103, 32, 99, 104, 101, 99, 107, 58]
/-- Byte list of the C string " done.\n". -/
def strDone : List Nat := [32, 100, 111, 110, 101, 46, 10]
/-- Byte list of the C string "steering: RrslL\ngas: FfhbB\n". -/
def strHelp : List Nat :=
  [115, 116, 101, 101, 114, 105, 110, 103, 58, 32, 82, 114, 115, 108, 76, 10,
   103, 97, 115, 58, 32, 70, 102, 104, 98, 66, 10]
/-- Byte list of the C string "?\n". -/
def strQm : List Nat := [63, 10]

/-- The two sequential clamping ifs at the head of motor_drive_set_velocity
and motor_steer_set_velocity:
if (v > 255) v = 255; if (v < -255) v = -255. -/
def clamp255 (v : Int) : Int :=
  let v := if v > 255 then 255 else v
  if v < -255 then -255 else v

/-- C expression v & 0xff on an int16_t value: the low byte, i.e. v mod 256
in two's complement (a Nat in [0, 255]). -/
def and0xff (v : Int) : Nat := (v % 256).toNat

/-- motor_drive_forward: OCR1A = 0; OCR1B = speed. -/
def motor_drive_forward (speed : Nat) (s : FwState) : FwState :=
  { s with OCR1A := 0, OCR1B := speed }

/-- motor_drive_reverse: OCR1B = 0; OCR1A = speed. -/
def motor_drive_reverse (speed : Nat) (s : FwState) : FwState :=
  { s with OCR1B := 0, OCR1A := speed }

/-- motor_steer_right: OCR0B = 0; OCR0A = value. -/
def motor_steer_right (value : Nat) (s : FwState) : FwState :=
  { s with OCR0B := 0, OCR0A := value }

/-- motor_steer_left: OCR0A = 0; OCR0B = value. -/
def motor_steer_left (value : Nat) (s : FwState) : FwState :=
  { s with OCR0A := 0, OCR0B := value }

/-- motor_drive_set_velocity: clamp to [-255, 255], store, echo
"drive=<v>\n", then drive forward with the low byte for v >= 0 or reverse
with 0xff - low byte for v < 0. -/
def motor_drive_set_velocity (newvelocity : Int) (s : FwState) : FwState :=
  let nv := clamp255 newvelocity
  let s := { s with velocity := nv }
  let s := uart_sendch 10 (uart_sendint nv (uart_send strDrive s))
  if 0 ≤ nv then
    motor_drive_forward (and0xff nv) s
  else
    motor_drive_reverse (255 - and0xff nv) s

/-- motor_steer_set_velocity: clamp to [-255, 255], store, echo
"steer=<v>\n", then steer right with the low byte for v >= 0 or left with
0xff - low byte for v < 0. -/
def motor_steer_set_velocity (newsteerposition : Int) (s : FwState) : FwState :=
  let np := clamp255 newsteerposition
  let s := { s with steerposition := np }
  let s := uart_sendch 10 (uart_sendint np (uart_send strSteer s))
  if 0 ≤ np then
    motor_steer_right (and0xff np) s
  else
    motor_steer_left (255 - and0xff np) s

/-- The switch body of handle_char_compat_dagu, indexed by the decoded
direction nibble; cases outside 0-8 fall through the switch doing
nothing. -/
def dagu_dispatch (direction : Nat) (speed : Nat) (s : FwState) : FwState :=
  match direction with
  | 0 => motor_drive_set_velocity 0 (motor_steer_set_velocity 0 s)
  | 1 => motor_drive_set_velocity (speed : Int) (motor_steer_set_velocity 0 s)
  | 2 => motor_drive_set_velocity (-(speed : Int)) (motor_steer_set_velocity 0 s)
  | 3 => motor_drive_set_velocity 0 (motor_steer_set_velocity (-255) s)
  | 4 => motor_drive_set_velocity 0 (motor_steer_set_velocity 255 s)
  | 5 => motor_drive_set_velocity (speed : Int) (motor_steer_set_velocity (-255) s)
  | 6 => motor_drive_set_velocity (speed : Int) (motor_steer_set_velocity 255 s)
  | 7 => motor_drive_set_velocity (-(speed : Int)) (motor_steer_set_velocity (-255) s)
  | 8 => motor_drive_set_velocity (-(speed : Int)) (motor_steer_set_velocity 255 s)
  | _ => s

/-- handle_char_compat_dagu: speed = 105 + low nibble, direction = high
nibble, then the direction switch. -/
def handle_char_compat_dagu (command : Nat) (s : FwState) : FwState :=
  let speed : Nat := 105 + (command % 16) * 1
  let direction : Nat := command / 16 % 16
  dagu_dispatch direction speed s

/-- OURMAGIC 0x47. -/
def OURMAGIC : Nat := 0x47

/-- flash_led1: blink led1 count times (the rate only selects the busy-wait
delay length, which has no modelled effect); led1 ends off. -/
def flash_led1 (count : Nat) (rate : Nat) (s : FwState) : FwState :=
  let s := led1off s
  (List.range count).foldl (fun st _ => led1off (led1on st)) s

/-- check_magic_and_show_age: flash led1, flash an error pattern when the
EEPROM magic byte mismatches OURMAGIC, then show the age counter's low 4
bits on led1-led4 for a moment and turn them back off. -/
def check_magic_and_show_age (s : FwState) : FwState :=
  let s := flash_led1 4 1 s
  let m := s.eemagic
  let s := if m ≠ OURMAGIC then flash_led1 20 2 s else s
  let age := s.eeage
  let s := led4off (led3off (led2off (led1off s)))
  let s := if Nat.testBit age 0 then led1on s else s
  let s := if Nat.testBit age 1 then led2on s else s
  let s := if Nat.testBit age 2 then led3on s else s
  let s := if Nat.testBit age 3 then led4on s else s
  led4off (led3off (led2off (led1off s)))

/-- age_once: increment the EEPROM age byte (uint8_t, wraps at 256). -/
def age_once (s : FwState) : FwState :=
  { s with eeage := (s.eeage + 1) % 256 }

/-- handle_char (the direct protocol decoder); adch is the ADCH register
value read in the help case. -/
def handle_char (command : Nat) (adch : Nat) (s : FwState) : FwState :=
  match command with
  | 82 => motor_steer_set_velocity 255 s
  | 114 => motor_steer_set_velocity 127 s
  | 115 => motor_steer_set_velocity 0 s
  | 108 => motor_steer_set_velocity (-127) s
  | 76 => motor_steer_set_velocity (-255) s
  | 70 => motor_drive_set_velocity 255 s
  | 102 => motor_drive_set_velocity 127 s
  | 104 => motor_drive_set_velocity 0 s
  | 98 => motor_drive_set_velocity (-127) s
  | 66 => motor_drive_set_velocity (-255) s
  | 97 => motor_steer_set_velocity (-255) s
  | 111 => motor_steer_set_velocity 0 s
  | 101 => motor_steer_set_velocity 255 s
  | 112 => motor_drive_set_velocity (s.velocity + 5) s
  | 117 => motor_drive_set_velocity (s.velocity - 5) s
  | 32 => motor_steer_set_velocity 0 (motor_drive_set_velocity 0 s)
  | 65 => check_magic_and_show_age (age_once (check_magic_and_show_age s))
  | 63 => uart_sendch 10 (uart_sendint ((adch % 256 : Nat) : Int)
      (uart_send strBatt (uart_send strHelp s)))
  | _ => uart_send strQm s

/-- Verbatim translation of the batt_sample computation: uint8_t
battsample = ADCH; battsample -= 142 (wraps mod 256); if (battsample < 0)
battsample = 0; battsample *= 5 (wraps mod 256); if (battsample > 255)
battsample = 255.  The two comparisons happen after C integer promotion of
the unsigned byte to int, hence the casts; both ifs are dead because an
unsigned byte is never negative and never exceeds 255
(battSampleValCode_eq below proves this). -/
def battSampleValCode (adch : Nat) : Nat :=
  let battsample : Nat := (adch % 256 + 256 - 142) % 256
  let battsample : Nat := if (battsample : Int) < 0 then 0 else battsample
  let battsample : Nat := battsample * 5 % 256
  let battsample : Nat := if (battsample : Int) > 255 then 255 else battsample
  battsample

/-- The residual value batt_sample stores into battlevel for an ADCH
reading, with the two provably dead clamping ifs of battSampleValCode
removed (battSampleValCode_eq). -/
def battSampleVal (adch : Nat) : Nat :=
  (adch % 256 + 256 - 142) % 256 * 5 % 256

/-- The two clamping ifs in the batt_sample body never fire: the verbatim
computation equals the residual one. -/
theorem battSampleValCode_eq (a : Nat) : battSampleValCode a = battSampleVal a := by
  simp only [battSampleValCode, battSampleVal]
  rw [if_neg (show ¬ (((a % 256 + 256 - 142) % 256 : Nat) : Int) < 0 by omega)]
  rw [if_neg]
  have := Nat.mod_lt ((a % 256 + 256 - 142) % 256 * 5) (show 0 < 256 by omega)
  omega

/-- batt_sample: read ADCH, rescale, store as battlevel. -/
def batt_sample (adch : Nat) (s : FwState) : FwState :=
  { s with battlevel := battSampleVal adch }

/-- One iteration of the batt_low_consistently loop: delay (no modelled
effect), sample, and when the sample is below threshold echo " batt=<v>"
and count it. -/
def battLowStep (threshold : Nat) (adcs : Nat → Nat) (acc : FwState × Nat)
    (i : Nat) : FwState × Nat :=
  let st := batt_sample (adcs i) acc.1
  if st.battlevel < threshold then
    (uart_sendint (st.battlevel : Int) (uart_send strSpBatt st), acc.2 + 1)
  else
    (st, acc.2)

/-- batt_low_consistently: 20 samples (the i-th reading of ADCH is
adcs i), count those strictly below threshold, return warn > 17. -/
def batt_low_consistently (threshold : Nat) (adcs : Nat → Nat)
    (s : FwState) : FwState × Bool :=
  let s := uart_send strBattLongCheck s
  let p := (List.range 20).foldl (battLowStep threshold adcs) (s, 0)
  (uart_send strDone p.1, decide (17 < p.2))

/-- battlowthreshold 10. -/
def battlowthreshold : Nat := 10
/-- voltagedisplaytoggleperiodlength 200. -/
def voltagedisplaytoggleperiodlength : Nat := 200
/-- battwarntoggleperiodlength 20. -/
def battwarntoggleperiodlength : Nat := 20
/-- mainloopdelay 40 (busy-wait length; timing only). -/
def mainloopdelay : Nat := 40

/-- One countdown/flip step as performed once per tick on each toggle:
countdown-- on a uint8_t (0 wraps to 255), then if (countdown <= 0)
(i.e. countdown == 0 for an unsigned byte) reset it to the period and flip
the state. -/
def toggleStep (period : Nat) (t : ToggleState) : ToggleState :=
  let c := if t.countdown = 0 then 255 else t.countdown - 1
  if c ≤ 0 then
    { countdown := period, state := !t.state }
  else
    { countdown := c, state := t.state }

/-- Inputs the environment supplies to one main-loop tick: the PD4
bluetooth-connected level, the pending UART byte when uart_hasch() is set,
the ADCH reading for the display-branch sample, and the stream of ADCH
readings consumed by batt_low_consistently's 20 samples. -/
structure TickInput where
  connected : Bool
  uartByte : Option Nat
  adchDisplay : Nat
  adchCheck : Nat → Nat

/-- Tick step 2: the bluetooth-connected sample; on a low reading zero the
drive velocity then the steer velocity. -/
def connectivityPhase (connected : Bool) (s : FwState) : FwState :=
  if connected then s
  else motor_steer_set_velocity 0 (motor_drive_set_velocity 0 s)

/-- Tick step 3: when uart_hasch(), blink led4 around uart_getch() and
dispatch the byte to handle_char_compat_dagu (the handle_char call is
commented out in the source). -/
def commandPhase (uartByte : Option Nat) (s : FwState) : FwState :=
  match uartByte with
  | some b => handle_char_compat_dagu (b % 256) (led4off (led4on s))
  | none => s

/-- Tick steps 4-5: advance the display toggle, then either sample the
battery and drive OCR2B with the inverted level, or drive OCR2B fully
off. -/
def displayPhase (adch : Nat) (s : FwState) : FwState :=
  let s := { s with vdToggle := toggleStep voltagedisplaytoggleperiodlength s.vdToggle }
  if s.vdToggle.state then
    let s := batt_sample adch s
    { s with OCR2B := 255 - s.battlevel }
  else
    { s with OCR2B := 255 - 255 }

/-- Tick step 6: advance the warning toggle. -/
def warnTogglePhase (s : FwState) : FwState :=
  { s with bwToggle := toggleStep battwarntoggleperiodlength s.bwToggle }

/-- Tick step 7: when battlevel is below battlowthreshold, echo the level,
run batt_low_consistently, and on a sustained-low verdict drive led3 from
the warning toggle and zero both velocities. -/
def battPhase (adcs : Nat → Nat) (s : FwState) : FwState :=
  if s.battlevel < battlowthreshold then
    let s := uart_sendch 10 (uart_sendint (s.battlevel : Int) (uart_send strBatt s))
    let r := batt_low_consistently battlowthreshold adcs s
    if r.2 then
      let s := if r.1.bwToggle.state then led3on r.1 else led3off r.1
      motor_steer_set_velocity 0 (motor_drive_set_velocity 0 s)
    else
      r.1
  else
    s

/-- Tick steps 2-6: everything of one while(1) iteration before the
low-battery branch (wdt_reset has no modelled state). -/
def tickPhase1 (inp : TickInput) (s : FwState) : FwState :=
  warnTogglePhase (displayPhase inp.adchDisplay
    (commandPhase inp.uartByte (connectivityPhase inp.connected s)))

/-- One full iteration of the main while(1) loop. -/
def mainTick (inp : TickInput) (s : FwState) : FwState :=
  battPhase inp.adchCheck (tickPhase1 inp s)

/-- The state at the top of the first while(1) iteration: velocities and
duty registers are zero after initialization and the self-test pulses
(OCR2B was set to 0xff), battlevel starts at 11, the display toggle at
countdown 10 / off, the warning toggle at countdown 0 / off, EEPROM holds
OURMAGIC and age 0, LEDs are off. -/
def initState : FwState :=
  { velocity := 0
    steerposition := 0
    OCR0A := 0
    OCR0B := 0
    OCR1A := 0
    OCR1B := 0
    OCR2B := 255
    battlevel := 11
    vdToggle := { countdown := 10, state := false }
    bwToggle := { countdown := 0, state := false }
    eemagic := OURMAGIC
    eeage := 0
    led1 := false
    led2 := false
    led3 := false
    led4 := false
    led5 := false
    uartOut := [] }

/-- The spec's battery rescale ("subtract a baseline offset, clamp negative
to 0, multiply by a fixed gain, clamp to 255"), i.e. clamp(0, 255,
(r - 142) * 5), stated from the spec's words for comparison with
battSampleVal. -/
def specBattLevel (r : Int) : Int :=
  min 255 (max 0 ((r - 142) * 5))

/-- The spec's fixed steer-target table for compatibility direction codes
0-8, stated from the spec's words for comparison with the decoder. -/
def specDaguSteer : Nat → Int
  | 0 => 0
  | 1 => 0
  | 2 => 0
  | 3 => -255
  | 4 => 255
  | 5 => -255
  | 6 => 255
  | 7 => -255
  | 8 => 255
  | _ => 0

/-- The spec's fixed drive-target table for compatibility direction codes
0-8 at a given speed, stated from the spec's words for comparison with the
decoder. -/
def specDaguDrive (speed : Int) : Nat → Int
  | 0 => 0
  | 1 => speed
  | 2 => -speed
  | 3 => 0
  | 4 => 0
  | 5 => speed
  | 6 => speed
  | 7 => -speed
  | 8 => -speed
  | _ => 0

/-! ### Projection lemmas for the state-transforming primitives -/

theorem clamp255_eq_self {v : Int} (h1 : -255 ≤ v) (h2 : v ≤ 255) :
    clamp255 v = v := by
  simp only [clamp255]
  split_ifs <;> omega

@[simp] theorem clamp255_zero : clamp255 0 = 0 := rfl

@[simp] theorem clamp255_pos255 : clamp255 255 = 255 := rfl

@[simp] theorem clamp255_neg255 : clamp255 (-255) = -255 := rfl

@[simp] theorem drive_set_velocity_eq (v : Int) (s : FwState) :
    (motor_drive_set_velocity v s).velocity = clamp255 v := by
  simp only [motor_drive_set_velocity]
  split <;> rfl

@[simp] theorem drive_set_steer_eq (v : Int) (s : FwState) :
    (motor_drive_set_velocity v s).steerposition = s.steerposition := by
  simp only [motor_drive_set_velocity]
  split <;> rfl

@[simp] theorem drive_set_OCR0A (v : Int) (s : FwState) :
    (motor_drive_set_velocity v s).OCR0A = s.OCR0A := by
  simp only [motor_drive_set_velocity]
  split <;> rfl

@[simp] theorem drive_set_OCR0B (v : Int) (s : FwState) :
    (motor_drive_set_velocity v s).OCR0B = s.OCR0B := by
  simp only [motor_drive_set_velocity]
  split <;> rfl

@[simp] theorem drive_set_battlevel (v : Int) (s : FwState) :
    (motor_drive_set_velocity v s).battlevel = s.battlevel := by
  simp only [motor_drive_set_velocity]
  split <;> rfl

@[simp] theorem drive_set_vdToggle (v : Int) (s : FwState) :
    (motor_drive_set_velocity v s).vdToggle = s.vdToggle := by
  simp only [motor_drive_set_velocity]
  split <;> rfl

@[simp] theorem drive_set_bwToggle (v : Int) (s : FwState) :
    (motor_drive_set_velocity v s).bwToggle = s.bwToggle := by
  simp only [motor_drive_set_velocity]
  split <;> rfl

theorem drive_set_OCR1A (v : Int) (s : FwState) :
    (motor_drive_set_velocity v s).OCR1A =
      if 0 ≤ clamp255 v then 0 else 255 - and0xff (clamp255 v) := by
  simp only [motor_drive_set_velocity]
  split <;> rfl

theorem drive_set_OCR1B (v : Int) (s : FwState) :
    (motor_drive_set_velocity v s).OCR1B =
      if 0 ≤ clamp255 v then and0xff (clamp255 v) else 0 := by
  simp only [motor_drive_set_velocity]
  split <;> rfl

@[simp] theorem steer_set_steer_eq (v : Int) (s : FwState) :
    (motor_steer_set_velocity v s).steerposition = clamp255 v := by
  simp only [motor_steer_set_velocity]
  split <;> rfl

@[simp] theorem steer_set_velocity_eq (v : Int) (s : FwState) :
    (motor_steer_set_velocity v s).velocity = s.velocity := by
  simp only [motor_steer_set_velocity]
  split <;> rfl

@[simp] theorem steer_set_OCR1A (v : Int) (s : FwState) :
    (motor_steer_set_velocity v s).OCR1A = s.OCR1A := by
  simp only [motor_steer_set_velocity]
  split <;> rfl

@[simp] theorem steer_set_OCR1B (v : Int) (s : FwState) :
    (motor_steer_set_velocity v s).OCR1B = s.OCR1B := by
  simp only [motor_steer_set_velocity]
  split <;> rfl

@[simp] theorem steer_set_battlevel (v : Int) (s : FwState) :
    (motor_steer_set_velocity v s).battlevel = s.battlevel := by
  simp only [motor_steer_set_velocity]
  split <;> rfl

@[simp] theorem steer_set_vdToggle (v : Int) (s : FwState) :
    (motor_steer_set_velocity v s).vdToggle = s.vdToggle := by
  simp only [motor_steer_set_velocity]
  split <;> rfl

@[simp] theorem steer_set_bwToggle (v : Int) (s : FwState) :
    (motor_steer_set_velocity v s).bwToggle = s.bwToggle := by
  simp only [motor_steer_set_velocity]
  split <;> rfl

theorem steer_set_OCR0A (v : Int) (s : FwState) :
    (motor_steer_set_velocity v s).OCR0A =
      if 0 ≤ clamp255 v then and0xff (clamp255 v) else 0 := by
  simp only [motor_steer_set_velocity]
  split <;> rfl

theorem steer_set_OCR0B (v : Int) (s : FwState) :
    (motor_steer_set_velocity v s).OCR0B =
      if 0 ≤ clamp255 v then 0 else 255 - and0xff (clamp255 v) := by
  simp only [motor_steer_set_velocity]
  split <;> rfl

/-! ### Claims about the actuation mapper, battery rescale and the decoders -/

/-- C2 counterexample: at velocity 0, motor_drive_set_velocity leaves both
OCR1A and OCR1B at zero, so it is not the case that exactly one of the two
drive duty channels is non-zero. -/
theorem drive_set_zero_not_exactly_one :
    (motor_drive_set_velocity 0 initState).OCR1A = 0 ∧
    (motor_drive_set_velocity 0 initState).OCR1B = 0 ∧
    ¬(((motor_drive_set_velocity 0 initState).OCR1A ≠ 0 ∧
        (motor_drive_set_velocity 0 initState).OCR1B = 0) ∨
      ((motor_drive_set_velocity 0 initState).OCR1A = 0 ∧
        (motor_drive_set_velocity 0 initState).OCR1B ≠ 0)) := by
  decide

/-- C2 amended: for every velocity v in [-255, 255], motor_drive_set_velocity
leaves at most one of OCR1A, OCR1B non-zero, and both are zero exactly for
v = 0 and v = -1. -/
theorem drive_duty_at_most_one_nonzero (v : Int) (s : FwState)
    (h1 : -255 ≤ v) (h2 : v ≤ 255) :
    ((motor_drive_set_velocity v s).OCR1A = 0 ∨
      (motor_drive_set_velocity v s).OCR1B = 0) ∧
    (((motor_drive_set_velocity v s).OCR1A = 0 ∧
        (motor_drive_set_velocity v s).OCR1B = 0) ↔ v = 0 ∨ v = -1) := by
  rw [drive_set_OCR1A, drive_set_OCR1B, clamp255_eq_self h1 h2]
  unfold and0xff
  split_ifs with h
  · exact ⟨Or.inl rfl, by omega⟩
  · exact ⟨Or.inr rfl, by omega⟩

/-- Witness for drive_duty_at_most_one_nonzero at v = 114. -/
theorem drive_duty_at_most_one_nonzero_witness :
    (-255 ≤ (114 : Int) ∧ (114 : Int) ≤ 255) ∧
    (((motor_drive_set_velocity 114 initState).OCR1A = 0 ∨
        (motor_drive_set_velocity 114 initState).OCR1B = 0) ∧
      (((motor_drive_set_velocity 114 initState).OCR1A = 0 ∧
          (motor_drive_set_velocity 114 initState).OCR1B = 0) ↔
        (114 : Int) = 0 ∨ (114 : Int) = -1)) :=
  ⟨⟨by decide, by decide⟩,
    drive_duty_at_most_one_nonzero 114 initState (by decide) (by decide)⟩

/-- C9: for every v in [-255, -1] the drive mapper zeroes the forward
channel OCR1B and sets the reverse channel OCR1A to 255 - (v & 0xff), and
the steer mapper zeroes the right channel OCR0A and sets the left channel
OCR0B to the same value. -/
theorem reverse_duty_formula (v : Int) (s : FwState)
    (h1 : -255 ≤ v) (h2 : v ≤ -1) :
    (motor_drive_set_velocity v s).OCR1B = 0 ∧
    (motor_drive_set_velocity v s).OCR1A = 255 - and0xff v ∧
    (motor_steer_set_velocity v s).OCR0A = 0 ∧
    (motor_steer_set_velocity v s).OCR0B = 255 - and0xff v := by
  rw [drive_set_OCR1A, drive_set_OCR1B, steer_set_OCR0A, steer_set_OCR0B,
    clamp255_eq_self h1 (by omega)]
  have hneg : ¬ (0 ≤ v) := by omega
  simp [hneg]

/-- Witness for reverse_duty_formula at v = -128, together with the claim's
named duty values at v = -1, -128, -255. -/
theorem reverse_duty_formula_witness :
    (-255 ≤ (-128 : Int) ∧ (-128 : Int) ≤ -1) ∧
    ((motor_drive_set_velocity (-128) initState).OCR1B = 0 ∧
      (motor_drive_set_velocity (-128) initState).OCR1A = 255 - and0xff (-128) ∧
      (motor_steer_set_velocity (-128) initState).OCR0A = 0 ∧
      (motor_steer_set_velocity (-128) initState).OCR0B = 255 - and0xff (-128)) ∧
    255 - and0xff (-1) = 0 ∧ 255 - and0xff (-128) = 127 ∧ 255 - and0xff (-255) = 254 :=
  ⟨⟨by decide, by decide⟩,
    reverse_duty_formula (-128) initState (by decide) (by decide),
    by decide, by decide, by decide⟩

/-- C3 (code bug): battsample is a uint8_t, so the subtraction and the
multiplication in batt_sample wrap mod 256 and its two clamping ifs can
never fire.  At raw reading 0 the code stores 58 where the claimed
clamp(0, 255, (r - 142) * 5) is 0; at raw reading 194 it stores 4 where
the claim gives 255. -/
theorem batt_sample_wrap_divergence :
    battSampleValCode 0 = 58 ∧ specBattLevel 0 = 0 ∧
    battSampleValCode 194 = 4 ∧ specBattLevel 194 = 255 ∧
    (batt_sample 0 initState).battlevel = 58 := by
  decide

/-- C10: the direct-protocol increment byte 'p' sets the stored drive
velocity to min(velocity + 5, 255) and the decrement byte 'u' sets it to
max(velocity - 5, -255); saturation at the boundaries, no wraparound. -/
theorem handle_char_incdec_saturates (s : FwState) (adch : Nat)
    (h1 : -255 ≤ s.velocity) (h2 : s.velocity ≤ 255) :
    (handle_char 112 adch s).velocity = min (s.velocity + 5) 255 ∧
    (handle_char 117 adch s).velocity = max (s.velocity - 5) (-255) := by
  constructor
  · show (motor_drive_set_velocity (s.velocity + 5) s).velocity = _
    rw [drive_set_velocity_eq]
    simp only [clamp255]
    split_ifs <;> omega
  · show (motor_drive_set_velocity (s.velocity - 5) s).velocity = _
    rw [drive_set_velocity_eq]
    simp only [clamp255]
    split_ifs <;> omega

/-- Witness for handle_char_incdec_saturates at initState (velocity 0). -/
theorem handle_char_incdec_saturates_witness :
    (-255 ≤ initState.velocity ∧ initState.velocity ≤ 255) ∧
    (handle_char 112 0 initState).velocity = min (initState.velocity + 5) 255 ∧
    (handle_char 117 0 initState).velocity = max (initState.velocity - 5) (-255) :=
  ⟨⟨by decide, by decide⟩,
    (handle_char_incdec_saturates initState 0 (by decide) (by decide)).1,
    (handle_char_incdec_saturates initState 0 (by decide) (by decide)).2⟩

/-- C6: for every command byte whose direction nibble is in 0-8, the
compatibility decoder stores the spec table's steer target and drive
target, the drive magnitude being speed = 105 + low nibble. -/
theorem dagu_direction_table (c : Nat) (s : FwState)
    (h1 : c < 256) (h2 : c / 16 ≤ 8) :
    (handle_char_compat_dagu c s).steerposition = specDaguSteer (c / 16) ∧
    (handle_char_compat_dagu c s).velocity =
      specDaguDrive ((105 + c % 16 : Nat) : Int) (c / 16) := by
  simp only [handle_char_compat_dagu]
  rw [Nat.mod_eq_of_lt (show c / 16 < 16 by omega), Nat.mul_one]
  have hd : c / 16 = 0 ∨ c / 16 = 1 ∨ c / 16 = 2 ∨ c / 16 = 3 ∨ c / 16 = 4 ∨
      c / 16 = 5 ∨ c / 16 = 6 ∨ c / 16 = 7 ∨ c / 16 = 8 := by omega
  rcases hd with h|h|h|h|h|h|h|h|h <;> rw [h] <;>
    refine ⟨?_, ?_⟩ <;>
      simp only [dagu_dispatch, specDaguSteer, specDaguDrive,
        drive_set_velocity_eq, drive_set_steer_eq, steer_set_steer_eq,
        clamp255_zero, clamp255_pos255, clamp255_neg255] <;>
      first
        | rfl
        | exact clamp255_eq_self (by push_cast; omega) (by push_cast; omega)

/-- Witness for dagu_direction_table at the claim's bytes 0x19 = 25 and
0x5A = 90. -/
theorem dagu_direction_table_witness :
    ((25 : Nat) < 256 ∧ 25 / 16 ≤ 8 ∧ (90 : Nat) < 256 ∧ 90 / 16 ≤ 8) ∧
    (handle_char_compat_dagu 25 initState).steerposition = 0 ∧
    (handle_char_compat_dagu 25 initState).velocity = 114 ∧
    (handle_char_compat_dagu 90 initState).steerposition = -255 ∧
    (handle_char_compat_dagu 90 initState).velocity = 115 :=
  ⟨⟨by decide, by decide, by decide, by decide⟩,
    (dagu_direction_table 25 initState (by decide) (by decide)).1.trans (by decide),
    (dagu_direction_table 25 initState (by decide) (by decide)).2.trans (by decide),
    (dagu_direction_table 90 initState (by decide) (by decide)).1.trans (by decide),
    (dagu_direction_table 90 initState (by decide) (by decide)).2.trans (by decide)⟩

/-- C7: a compat command byte whose direction nibble is outside 0-8 is
silently ignored: the whole machine state — velocities, duty registers and
the UART output trace — is unchanged and nothing is sent. -/
theorem dagu_out_of_range_ignored (c : Nat) (s : FwState)
    (h1 : c < 256) (h2 : 9 ≤ c / 16) :
    handle_char_compat_dagu c s = s := by
  simp only [handle_char_compat_dagu]
  rw [Nat.mod_eq_of_lt (show c / 16 < 16 by omega)]
  have hd : c / 16 = 9 ∨ c / 16 = 10 ∨ c / 16 = 11 ∨ c / 16 = 12 ∨
      c / 16 = 13 ∨ c / 16 = 14 ∨ c / 16 = 15 := by omega
  rcases hd with h|h|h|h|h|h|h <;> rw [h] <;> rfl

/-- Witness for dagu_out_of_range_ignored at byte 0x90 = 144. -/
theorem dagu_out_of_range_ignored_witness :
    ((144 : Nat) < 256 ∧ 9 ≤ (144 : Nat) / 16) ∧
    handle_char_compat_dagu 144 initState = initState :=
  ⟨⟨by decide, by decide⟩,
    dagu_out_of_range_ignored 144 initState (by decide) (by decide)⟩

/-! ### Per-field projection lemmas (single-layer, used to avoid deep
definitional unfolding through composed record updates) -/

@[simp] theorem emit_velocity (bs : List Nat) (s : FwState) :
    (emit bs s).velocity = s.velocity := rfl
@[simp] theorem emit_steer (bs : List Nat) (s : FwState) :
    (emit bs s).steerposition = s.steerposition := rfl
@[simp] theorem emit_battlevel (bs : List Nat) (s : FwState) :
    (emit bs s).battlevel = s.battlevel := rfl
@[simp] theorem emit_vdToggle (bs : List Nat) (s : FwState) :
    (emit bs s).vdToggle = s.vdToggle := rfl
@[simp] theorem emit_bwToggle (bs : List Nat) (s : FwState) :
    (emit bs s).bwToggle = s.bwToggle := rfl

@[simp] theorem uart_sendch_def (ch : Nat) (s : FwState) :
    uart_sendch ch s = emit [ch] s := rfl
@[simp] theorem uart_send_def (str : List Nat) (s : FwState) :
    uart_send str s = emit str s := rfl
@[simp] theorem uart_sendint_def (v : Int) (s : FwState) :
    uart_sendint v s = emit (sendint_bytes v) s := rfl

@[simp] theorem batt_sample_battlevel (a : Nat) (s : FwState) :
    (batt_sample a s).battlevel = battSampleVal a := rfl
@[simp] theorem batt_sample_velocity (a : Nat) (s : FwState) :
    (batt_sample a s).velocity = s.velocity := rfl
@[simp] theorem batt_sample_steer (a : Nat) (s : FwState) :
    (batt_sample a s).steerposition = s.steerposition := rfl
@[simp] theorem batt_sample_vdToggle (a : Nat) (s : FwState) :
    (batt_sample a s).vdToggle = s.vdToggle := rfl
@[simp] theorem batt_sample_bwToggle (a : Nat) (s : FwState) :
    (batt_sample a s).bwToggle = s.bwToggle := rfl

@[simp] theorem led3on_velocity (s : FwState) : (led3on s).velocity = s.velocity := rfl
@[simp] theorem led3on_steer (s : FwState) : (led3on s).steerposition = s.steerposition := rfl
@[simp] theorem led3on_battlevel (s : FwState) : (led3on s).battlevel = s.battlevel := rfl
@[simp] theorem led3on_vdToggle (s : FwState) : (led3on s).vdToggle = s.vdToggle := rfl
@[simp] theorem led3on_bwToggle (s : FwState) : (led3on s).bwToggle = s.bwToggle := rfl
@[simp] theorem led3off_velocity (s : FwState) : (led3off s).velocity = s.velocity := rfl
@[simp] theorem led3off_steer (s : FwState) : (led3off s).steerposition = s.steerposition := rfl
@[simp] theorem led3off_battlevel (s : FwState) : (led3off s).battlevel = s.battlevel := rfl
@[simp] theorem led3off_vdToggle (s : FwState) : (led3off s).vdToggle = s.vdToggle := rfl
@[simp] theorem led3off_bwToggle (s : FwState) : (led3off s).bwToggle = s.bwToggle := rfl

@[simp] theorem led4on_velocity (s : FwState) : (led4on s).velocity = s.velocity := rfl
@[simp] theorem led4on_steer (s : FwState) : (led4on s).steerposition = s.steerposition := rfl
@[simp] theorem led4on_battlevel (s : FwState) : (led4on s).battlevel = s.battlevel := rfl
@[simp] theorem led4on_vdToggle (s : FwState) : (led4on s).vdToggle = s.vdToggle := rfl
@[simp] theorem led4on_bwToggle (s : FwState) : (led4on s).bwToggle = s.bwToggle := rfl
@[simp] theorem led4off_velocity (s : FwState) : (led4off s).velocity = s.velocity := rfl
@[simp] theorem led4off_steer (s : FwState) : (led4off s).steerposition = s.steerposition := rfl
@[simp] theorem led4off_battlevel (s : FwState) : (led4off s).battlevel = s.battlevel := rfl
@[simp] theorem led4off_vdToggle (s : FwState) : (led4off s).vdToggle = s.vdToggle := rfl
@[simp] theorem led4off_bwToggle (s : FwState) : (led4off s).bwToggle = s.bwToggle := rfl

/-! ### The batt_low_consistently loop -/

theorem battLowStep_snd (th : Nat) (adcs : Nat → Nat) (p : FwState × Nat) (i : Nat) :
    (battLowStep th adcs p i).2 =
      if battSampleVal (adcs i) < th then p.2 + 1 else p.2 := by
  simp only [battLowStep, batt_sample_battlevel]
  split <;> rfl

theorem battLowStep_velocity (th : Nat) (adcs : Nat → Nat) (p : FwState × Nat) (i : Nat) :
    (battLowStep th adcs p i).1.velocity = p.1.velocity := by
  simp only [battLowStep]
  split <;> simp

theorem battLowStep_steer (th : Nat) (adcs : Nat → Nat) (p : FwState × Nat) (i : Nat) :
    (battLowStep th adcs p i).1.steerposition = p.1.steerposition := by
  simp only [battLowStep]
  split <;> simp

theorem battLowStep_vdToggle (th : Nat) (adcs : Nat → Nat) (p : FwState × Nat) (i : Nat) :
    (battLowStep th adcs p i).1.vdToggle = p.1.vdToggle := by
  simp only [battLowStep]
  split <;> simp

theorem battLowStep_bwToggle (th : Nat) (adcs : Nat → Nat) (p : FwState × Nat) (i : Nat) :
    (battLowStep th adcs p i).1.bwToggle = p.1.bwToggle := by
  simp only [battLowStep]
  split <;> simp

theorem battLowLoop_velocity (th : Nat) (adcs : Nat → Nat) :
    ∀ (l : List Nat) (p : FwState × Nat),
      (l.foldl (battLowStep th adcs) p).1.velocity = p.1.velocity := by
  intro l
  induction l with
  | nil => intro p; rfl
  | cons a t ih =>
    intro p
    rw [List.foldl_cons, ih, battLowStep_velocity]

theorem battLowLoop_steer (th : Nat) (adcs : Nat → Nat) :
    ∀ (l : List Nat) (p : FwState × Nat),
      (l.foldl (battLowStep th adcs) p).1.steerposition = p.1.steerposition := by
  intro l
  induction l with
  | nil => intro p; rfl
  | cons a t ih =>
    intro p
    rw [List.foldl_cons, ih, battLowStep_steer]

theorem battLowLoop_vdToggle (th : Nat) (adcs : Nat → Nat) :
    ∀ (l : List Nat) (p : FwState × Nat),
      (l.foldl (battLowStep th adcs) p).1.vdToggle = p.1.vdToggle := by
  intro l
  induction l with
  | nil => intro p; rfl
  | cons a t ih =>
    intro p
    rw [List.foldl_cons, ih, battLowStep_vdToggle]

theorem battLowLoop_bwToggle (th : Nat) (adcs : Nat → Nat) :
    ∀ (l : List Nat) (p : FwState × Nat),
      (l.foldl (battLowStep th adcs) p).1.bwToggle = p.1.bwToggle := by
  intro l
  induction l with
  | nil => intro p; rfl
  | cons a t ih =>
    intro p
    rw [List.foldl_cons, ih, battLowStep_bwToggle]

theorem battLowLoop_count (th : Nat) (adcs : Nat → Nat) :
    ∀ (l : List Nat) (p : FwState × Nat),
      (l.foldl (battLowStep th adcs) p).2 =
        p.2 + l.countP (fun i => decide (battSampleVal (adcs i) < th)) := by
  intro l
  induction l with
  | nil => intro p; simp
  | cons a t ih =>
    intro p
    rw [List.foldl_cons, ih, battLowStep_snd, List.countP_cons]
    by_cases h : battSampleVal (adcs a) < th <;> simp [h] <;> omega

theorem batt_low_velocity (th : Nat) (adcs : Nat → Nat) (s : FwState) :
    (batt_low_consistently th adcs s).1.velocity = s.velocity := by
  simp only [batt_low_consistently, uart_send_def, emit_velocity]
  rw [battLowLoop_velocity]
  rfl

theorem batt_low_steer (th : Nat) (adcs : Nat → Nat) (s : FwState) :
    (batt_low_consistently th adcs s).1.steerposition = s.steerposition := by
  simp only [batt_low_consistently, uart_send_def, emit_steer]
  rw [battLowLoop_steer]
  rfl

theorem batt_low_vdToggle (th : Nat) (adcs : Nat → Nat) (s : FwState) :
    (batt_low_consistently th adcs s).1.vdToggle = s.vdToggle := by
  simp only [batt_low_consistently, uart_send_def, emit_vdToggle]
  rw [battLowLoop_vdToggle]
  rfl

theorem batt_low_bwToggle (th : Nat) (adcs : Nat → Nat) (s : FwState) :
    (batt_low_consistently th adcs s).1.bwToggle = s.bwToggle := by
  simp only [batt_low_consistently, uart_send_def, emit_bwToggle]
  rw [battLowLoop_bwToggle]
  rfl

theorem batt_low_snd_eq (th : Nat) (adcs : Nat → Nat) (s : FwState) :
    (batt_low_consistently th adcs s).2 =
      decide (17 < (List.range 20).countP
        (fun i => decide (battSampleVal (adcs i) < th))) := by
  simp only [batt_low_consistently]
  rw [battLowLoop_count]
  simp

/-- C4: batt_low_consistently returns true iff at least 18 of its 20
sampled battery levels are strictly below the threshold (17 or fewer low
samples yield false). -/
theorem batt_low_consistently_iff (threshold : Nat) (adcs : Nat → Nat) (s : FwState) :
    (batt_low_consistently threshold adcs s).2 = true ↔
      18 ≤ (List.range 20).countP
        (fun i => decide (battSampleVal (adcs i) < threshold)) := by
  rw [batt_low_snd_eq]
  simp only [decide_eq_true_eq]
  omega

/-! ### Tick-phase lemmas -/

@[simp] theorem connectivityPhase_true (s : FwState) :
    connectivityPhase true s = s := rfl

theorem connectivityPhase_false_velocity (s : FwState) :
    (connectivityPhase false s).velocity = 0 := by
  simp [connectivityPhase]

theorem connectivityPhase_false_steer (s : FwState) :
    (connectivityPhase false s).steerposition = 0 := by
  simp [connectivityPhase]

theorem connectivityPhase_vdToggle (c : Bool) (s : FwState) :
    (connectivityPhase c s).vdToggle = s.vdToggle := by
  unfold connectivityPhase
  split <;> simp

theorem connectivityPhase_bwToggle (c : Bool) (s : FwState) :
    (connectivityPhase c s).bwToggle = s.bwToggle := by
  unfold connectivityPhase
  split <;> simp

@[simp] theorem commandPhase_none (s : FwState) :
    commandPhase none s = s := rfl

theorem dagu_dispatch_vdToggle (d sp : Nat) (s : FwState) :
    (dagu_dispatch d sp s).vdToggle = s.vdToggle := by
  unfold dagu_dispatch
  split <;> simp

theorem dagu_dispatch_bwToggle (d sp : Nat) (s : FwState) :
    (dagu_dispatch d sp s).bwToggle = s.bwToggle := by
  unfold dagu_dispatch
  split <;> simp

theorem commandPhase_vdToggle (b : Option Nat) (s : FwState) :
    (commandPhase b s).vdToggle = s.vdToggle := by
  cases b with
  | none => rfl
  | some c =>
    show (handle_char_compat_dagu (c % 256) (led4off (led4on s))).vdToggle = s.vdToggle
    simp only [handle_char_compat_dagu]
    rw [dagu_dispatch_vdToggle]
    simp

theorem commandPhase_bwToggle (b : Option Nat) (s : FwState) :
    (commandPhase b s).bwToggle = s.bwToggle := by
  cases b with
  | none => rfl
  | some c =>
    show (handle_char_compat_dagu (c % 256) (led4off (led4on s))).bwToggle = s.bwToggle
    simp only [handle_char_compat_dagu]
    rw [dagu_dispatch_bwToggle]
    simp

theorem displayPhase_velocity (a : Nat) (s : FwState) :
    (displayPhase a s).velocity = s.velocity := by
  simp only [displayPhase]
  split <;> simp

theorem displayPhase_steer (a : Nat) (s : FwState) :
    (displayPhase a s).steerposition = s.steerposition := by
  simp only [displayPhase]
  split <;> simp

theorem displayPhase_vdToggle (a : Nat) (s : FwState) :
    (displayPhase a s).vdToggle =
      toggleStep voltagedisplaytoggleperiodlength s.vdToggle := by
  simp only [displayPhase]
  split <;> simp

theorem displayPhase_bwToggle (a : Nat) (s : FwState) :
    (displayPhase a s).bwToggle = s.bwToggle := by
  simp only [displayPhase]
  split <;> simp

@[simp] theorem warnTogglePhase_velocity (s : FwState) :
    (warnTogglePhase s).velocity = s.velocity := rfl

@[simp] theorem warnTogglePhase_steer (s : FwState) :
    (warnTogglePhase s).steerposition = s.steerposition := rfl

@[simp] theorem warnTogglePhase_vdToggle (s : FwState) :
    (warnTogglePhase s).vdToggle = s.vdToggle := rfl

@[simp] theorem warnTogglePhase_bwToggle (s : FwState) :
    (warnTogglePhase s).bwToggle =
      toggleStep battwarntoggleperiodlength s.bwToggle := rfl

theorem battPhase_keeps_zero (adcs : Nat → Nat) (s : FwState)
    (hv : s.velocity = 0) (hs : s.steerposition = 0) :
    (battPhase adcs s).velocity = 0 ∧ (battPhase adcs s).steerposition = 0 := by
  simp only [battPhase]
  split
  · split
    · constructor <;> simp
    · refine ⟨?_, ?_⟩
      · rw [batt_low_velocity]
        simpa using hv
      · rw [batt_low_steer]
        simpa using hs
  · exact ⟨hv, hs⟩

theorem battPhase_vdToggle (adcs : Nat → Nat) (s : FwState) :
    (battPhase adcs s).vdToggle = s.vdToggle := by
  simp only [battPhase]
  split
  · split
    · simp only [steer_set_vdToggle, drive_set_vdToggle]
      split <;> simp only [led3on_vdToggle, led3off_vdToggle] <;>
        rw [batt_low_vdToggle] <;> simp
    · rw [batt_low_vdToggle]
      simp
  · rfl

theorem battPhase_bwToggle (adcs : Nat → Nat) (s : FwState) :
    (battPhase adcs s).bwToggle = s.bwToggle := by
  simp only [battPhase]
  split
  · split
    · simp only [steer_set_bwToggle, drive_set_bwToggle]
      split <;> simp only [led3on_bwToggle, led3off_bwToggle] <;>
        rw [batt_low_bwToggle] <;> simp
    · rw [batt_low_bwToggle]
      simp
  · rfl

/-! ### Claims C5 and C1 -/

/-- Concrete tick input for the C5 counterexample: connected, one pending
compat byte 0x19, healthy ADC readings. -/
def c5input : TickInput :=
  { connected := true, uartByte := some 25, adchDisplay := 190, adchCheck := fun _ => 190 }

/-- Concrete pre-tick state for the C5 counterexample: the initial state
with a critically low stored battery level. -/
def c5state : FwState := { initState with battlevel := 5 }

/-- C5 counterexample: on a tick that processes drive command 0x19 while
battlevel is 5, the low-battery branch is entered (battlevel is below the
threshold when batt_low_consistently starts) with drive velocity 114 — the
zero-velocity override has not been applied before the call begins. -/
theorem battcheck_entered_with_nonzero_velocity :
    (tickPhase1 c5input c5state).battlevel < battlowthreshold ∧
    (tickPhase1 c5input c5state).velocity = 114 ∧
    ¬((tickPhase1 c5input c5state).velocity = 0 ∧
      (tickPhase1 c5input c5state).steerposition = 0) := by
  decide

/-- C5 amended: the zero-velocity override is applied only after
batt_low_consistently returns, not before it starts: whenever the battery
branch is entered (battlevel below threshold) and the sustained-low count
reaches 18 of 20, both velocities are zero at the end of the battery
phase of that same tick. -/
theorem battPhase_zeroes_after_true_verdict (adcs : Nat → Nat) (s : FwState)
    (hlow : s.battlevel < battlowthreshold)
    (hcount : 18 ≤ (List.range 20).countP
      (fun i => decide (battSampleVal (adcs i) < battlowthreshold))) :
    (battPhase adcs s).velocity = 0 ∧ (battPhase adcs s).steerposition = 0 := by
  have hr : (batt_low_consistently battlowthreshold adcs
      (uart_sendch 10 (uart_sendint (s.battlevel : Int) (uart_send strBatt s)))).2 = true := by
    rw [batt_low_snd_eq]
    simp only [decide_eq_true_eq]
    omega
  simp only [battPhase]
  rw [if_pos hlow, hr]
  constructor <;> simp

/-- Witness for battPhase_zeroes_after_true_verdict: all 20 readings at
raw level 142 (level 0 < 10). -/
theorem battPhase_zeroes_after_true_verdict_witness :
    (c5state.battlevel < battlowthreshold ∧
      18 ≤ (List.range 20).countP
        (fun i => decide (battSampleVal 142 < battlowthreshold))) ∧
    (battPhase (fun _ => 142) c5state).velocity = 0 ∧
    (battPhase (fun _ => 142) c5state).steerposition = 0 :=
  ⟨⟨by decide, by decide⟩,
    battPhase_zeroes_after_true_verdict (fun _ => 142) c5state (by decide) (by decide)⟩

/-- Concrete tick input for the C1 counterexample: link-indicator low and
one pending compat byte 0x19. -/
def c1input : TickInput :=
  { connected := false, uartByte := some 25, adchDisplay := 190, adchCheck := fun _ => 190 }

/-- C1 counterexample: on a tick that reads connectivity false with compat
byte 0x19 pending, the tick ends with drive velocity 114, not 0: the
connectivity override runs before command processing and does not take
precedence over a command processed the same tick. -/
theorem mainTick_disconnected_command_overrides :
    c1input.connected = false ∧
    (mainTick c1input initState).velocity = 114 ∧
    ¬((mainTick c1input initState).velocity = 0 ∧
      (mainTick c1input initState).steerposition = 0) := by
  decide

/-- C1 amended: connectivity false zeroes both velocities at its place in
the tick (before command processing); when no command byte is pending that
tick, the tick ends with both velocities zero.  A command processed later
in the same tick can overwrite the override. -/
theorem mainTick_disconnected_no_command_zeroes (inp : TickInput) (s : FwState)
    (hc : inp.connected = false) (hb : inp.uartByte = none) :
    (mainTick inp s).velocity = 0 ∧ (mainTick inp s).steerposition = 0 := by
  unfold mainTick tickPhase1
  rw [hc, hb]
  apply battPhase_keeps_zero
  · rw [warnTogglePhase_velocity, displayPhase_velocity, commandPhase_none,
      connectivityPhase_false_velocity]
  · rw [warnTogglePhase_steer, displayPhase_steer, commandPhase_none,
      connectivityPhase_false_steer]

/-- Concrete tick input for the C1 witness: link-indicator low, no pending
byte. -/
def c1winput : TickInput :=
  { connected := false, uartByte := none, adchDisplay := 190, adchCheck := fun _ => 190 }

/-- Witness for mainTick_disconnected_no_command_zeroes. -/
theorem mainTick_disconnected_no_command_zeroes_witness :
    (c1winput.connected = false ∧ c1winput.uartByte = none) ∧
    (mainTick c1winput initState).velocity = 0 ∧
    (mainTick c1winput initState).steerposition = 0 :=
  ⟨⟨rfl, rfl⟩, mainTick_disconnected_no_command_zeroes c1winput initState rfl rfl⟩

/-! ### Toggle countdown behavior (C8) -/

theorem toggle_no_flip (P : Nat) :
    ∀ (j c : Nat) (s : Bool), j < c →
      (toggleStep P)^[j] { countdown := c, state := s } =
        { countdown := c - j, state := s } := by
  intro j
  induction j with
  | zero => intro c s h; simp
  | succ n ih =>
    intro c s h
    rw [Function.iterate_succ_apply]
    have hstep : toggleStep P { countdown := c, state := s } =
        { countdown := c - 1, state := s } := by
      simp only [toggleStep]
      rw [if_neg (show ¬ c = 0 by omega), if_neg (show ¬ c - 1 ≤ 0 by omega)]
    rw [hstep, ih (c - 1) s (by omega)]
    have : c - 1 - n = c - (n + 1) := by omega
    rw [this]

theorem toggle_flip_at (P : Nat) (c : Nat) (s : Bool) (h : 0 < c) :
    (toggleStep P)^[c] { countdown := c, state := s } =
      { countdown := P, state := !s } := by
  obtain ⟨n, rfl⟩ : ∃ n, c = n + 1 := ⟨c - 1, by omega⟩
  rw [Function.iterate_succ_apply', toggle_no_flip P n (n + 1) s (by omega)]
  have : n + 1 - n = 1 := by omega
  rw [this]
  simp [toggleStep]

theorem toggle_first_flip_from_zero (P : Nat) (s : Bool) :
    (toggleStep P)^[256] { countdown := 0, state := s } =
      { countdown := P, state := !s } := by
  have h1 : toggleStep P { countdown := 0, state := s } =
      { countdown := 255, state := s } := by
    simp [toggleStep]
  show (toggleStep P)^[255 + 1] _ = _
  rw [Function.iterate_succ_apply, h1]
  exact toggle_flip_at P 255 s (by omega)

theorem toggle_prefix_from_zero (P : Nat) (s : Bool) (j : Nat) (hj : j ≤ 255) :
    ((toggleStep P)^[j] { countdown := 0, state := s }).state = s := by
  cases j with
  | zero => rfl
  | succ n =>
    have h1 : toggleStep P { countdown := 0, state := s } =
        { countdown := 255, state := s } := by
      simp [toggleStep]
    rw [Function.iterate_succ_apply, h1, toggle_no_flip P n 255 s (by omega)]

theorem mainTick_toggle_independence (inp : TickInput) (s : FwState) :
    (mainTick inp s).vdToggle = toggleStep voltagedisplaytoggleperiodlength s.vdToggle ∧
    (mainTick inp s).bwToggle = toggleStep battwarntoggleperiodlength s.bwToggle := by
  unfold mainTick tickPhase1
  constructor
  · rw [battPhase_vdToggle, warnTogglePhase_vdToggle, displayPhase_vdToggle,
      commandPhase_vdToggle, connectivityPhase_vdToggle]
  · rw [battPhase_bwToggle, warnTogglePhase_bwToggle, displayPhase_bwToggle,
      commandPhase_bwToggle, connectivityPhase_bwToggle]

/-- C8 counterexample: driven one decrement per tick from its declared
initial countdown 0, the warning toggle (period 20) has flipped zero
times after 20 ticks — the uint8_t countdown wrapped to 255 on the first
decrement and stands at 236 — so it does not flip once every 20 ticks
from its declared initial countdown. -/
theorem battwarn_toggle_misses_first_period :
    initState.bwToggle.state = false ∧
    ((toggleStep battwarntoggleperiodlength)^[20] initState.bwToggle).state = false ∧
    ((toggleStep battwarntoggleperiodlength)^[20] initState.bwToggle).countdown = 236 := by
  decide

/-- C8 amended: once a toggle is in the post-flip regime (countdown =
period) it flips exactly once every P ticks: its state is unchanged at
every tick strictly inside a period and it returns to countdown = P with
flipped state after exactly P ticks; from the declared initial countdowns,
the display toggle (countdown 10) first flips at tick 10, while the
warning toggle (declared countdown 0, a uint8_t that wraps to 255 on the
first decrement) first flips only at tick 256; and every main-loop tick
advances each toggle by exactly one toggleStep of its own state,
independent of the other toggle and of the tick's inputs. -/
theorem toggle_period_behavior :
    (∀ (s : Bool) (j : Nat), j < voltagedisplaytoggleperiodlength →
      ((toggleStep voltagedisplaytoggleperiodlength)^[j]
        { countdown := voltagedisplaytoggleperiodlength, state := s }).state = s) ∧
    (∀ s : Bool,
      (toggleStep voltagedisplaytoggleperiodlength)^[voltagedisplaytoggleperiodlength]
        { countdown := voltagedisplaytoggleperiodlength, state := s } =
        { countdown := voltagedisplaytoggleperiodlength, state := !s }) ∧
    (∀ (s : Bool) (j : Nat), j < battwarntoggleperiodlength →
      ((toggleStep battwarntoggleperiodlength)^[j]
        { countdown := battwarntoggleperiodlength, state := s }).state = s) ∧
    (∀ s : Bool,
      (toggleStep battwarntoggleperiodlength)^[battwarntoggleperiodlength]
        { countdown := battwarntoggleperiodlength, state := s } =
        { countdown := battwarntoggleperiodlength, state := !s }) ∧
    ((∀ j : Nat, j < 10 →
      ((toggleStep voltagedisplaytoggleperiodlength)^[j] initState.vdToggle).state = false) ∧
      (toggleStep voltagedisplaytoggleperiodlength)^[10] initState.vdToggle =
        { countdown := voltagedisplaytoggleperiodlength, state := true }) ∧
    ((∀ j : Nat, j < 256 →
      ((toggleStep battwarntoggleperiodlength)^[j] initState.bwToggle).state = false) ∧
      (toggleStep battwarntoggleperiodlength)^[256] initState.bwToggle =
        { countdown := battwarntoggleperiodlength, state := true }) ∧
    (∀ (inp : TickInput) (s : FwState),
      (mainTick inp s).vdToggle = toggleStep voltagedisplaytoggleperiodlength s.vdToggle ∧
      (mainTick inp s).bwToggle = toggleStep battwarntoggleperiodlength s.bwToggle) := by
  refine ⟨?_, ?_, ?_, ?_, ⟨?_, ?_⟩, ⟨?_, ?_⟩, mainTick_toggle_independence⟩
  · intro s j hj
    rw [toggle_no_flip _ j _ s hj]
  · intro s
    exact toggle_flip_at _ _ s (by decide)
  · intro s j hj
    rw [toggle_no_flip _ j _ s hj]
  · intro s
    exact toggle_flip_at _ _ s (by decide)
  · intro j hj
    show ((toggleStep voltagedisplaytoggleperiodlength)^[j]
      { countdown := 10, state := false }).state = false
    rw [toggle_no_flip _ j 10 false hj]
  · show (toggleStep voltagedisplaytoggleperiodlength)^[10]
      { countdown := 10, state := false } = _
    rw [toggle_flip_at _ 10 false (by omega)]
    rfl
  · intro j hj
    show ((toggleStep battwarntoggleperiodlength)^[j]
      { countdown := 0, state := false }).state = false
    exact toggle_prefix_from_zero _ false j (by omega)
  · show (toggleStep battwarntoggleperiodlength)^[256]
      { countdown := 0, state := false } = _
    rw [toggle_first_flip_from_zero]
    rfl

/-- Witness for toggle_period_behavior: no flip 7 ticks into a display
period, and a full warning period flips the state once. -/
theorem toggle_period_behavior_witness :
    ((toggleStep voltagedisplaytoggleperiodlength)^[7]
      { countdown := voltagedisplaytoggleperiodlength, state := false }).state = false ∧
    (toggleStep battwarntoggleperiodlength)^[battwarntoggleperiodlength]
      { countdown := battwarntoggleperiodlength, state := true } =
      { countdown := battwarntoggleperiodlength, state := false } :=
  ⟨toggle_period_behavior.1 false 7 (by decide),
    toggle_period_behavior.2.2.2.1 true⟩
